import Mathlib

/-
Verification of the ingestion/normalization pipeline of the Cosmic Daily
Digest dashboard (src/app.py).

The shallow embedding below translates the data model and the operations of
src/app.py into Lean:
  * `Json` / `parseJson`   — the parsed response body and a model of the
    JSON decoding performed by `response.json()` (Python `json.loads`);
  * `PyDateTime` / `pyFromIsoformat` — a model of
    `datetime.fromisoformat` as used by `format_time` / `format_date`;
  * `format_time`, `format_date` (app.py lines 69-87);
  * `numeric_display`       — the inline numeric-with-unit formatting of
    lines 177-178 and 183-184;
  * `classify_media`        — the media-type dispatch of lines 150-157;
  * `validate`              — the structural check of lines 129-131,
    including Python truthiness and the semantics of the `in` operator;
  * `fetch_data`            — the fetch/parse/error dispatch of lines 89-102,
    with its two `except` branches.
-/

namespace CosmicDigest

/-- Model of a Python numeric value as produced by JSON decoding: either an
integer, or a decimal number given by sign, integer part and the list of
fractional digits (exponent notation is not modelled). -/
inductive PyNum where
  | int (n : Int)
  | dec (neg : Bool) (ip : Nat) (frac : List Nat)
deriving DecidableEq

/-- Textual form of a numeric value, as interpolated by Python f-strings:
`str(0) = "0"`, `str(21.5) = "21.5"`. -/
def pyNumStr : PyNum → String
  | .int n => toString n
  | .dec neg ip frac =>
      (if neg then "-" else "") ++ toString ip ++ "." ++
        String.mk (frac.map (fun d => Char.ofNat (d + 48)))

/-- Whether a numeric value is Python-falsy (equal to zero). -/
def pyNumIsZero : PyNum → Bool
  | .int n => n = 0
  | .dec _ ip frac => ip = 0 && frac.all (fun d => d = 0)

/-- Model of a parsed JSON document (the result of `response.json()`). -/
inductive Json where
  | null
  | bool (b : Bool)
  | num (n : PyNum)
  | str (s : String)
  | arr (elems : List Json)
  | obj (fields : List (String × Json))

/-- Python equality of a JSON value against a string (only a string can
compare equal to a string). -/
def Json.eqStr (j : Json) (k : String) : Bool :=
  match j with
  | .str s => s = k
  | _ => false

/-- Skip JSON whitespace. -/
def skipWs : List Char → List Char
  | c :: cs => if c = ' ' ∨ c = '\t' ∨ c = '\n' ∨ c = '\r' then skipWs cs else c :: cs
  | [] => []

/-- Hexadecimal digit value, for string escapes. -/
def hexVal (c : Char) : Option Nat :=
  if '0' ≤ c ∧ c ≤ '9' then some (c.toNat - 48)
  else if 'a' ≤ c ∧ c ≤ 'f' then some (c.toNat - 87)
  else if 'A' ≤ c ∧ c ≤ 'F' then some (c.toNat - 55)
  else none

/-- Body of a JSON string after the opening quote: standard escapes, raw
control characters rejected (surrogate pairing of escapes is not modelled). -/
def parseStrChars : List Char → List Char → Option (List Char × List Char)
  | _, [] => none
  | acc, '\"' :: rest => some (acc.reverse, rest)
  | acc, '\\' :: rest =>
      match rest with
      | '\"' :: r => parseStrChars ('\"' :: acc) r
      | '\\' :: r => parseStrChars ('\\' :: acc) r
      | '/' :: r => parseStrChars ('/' :: acc) r
      | 'n' :: r => parseStrChars ('\n' :: acc) r
      | 't' :: r => parseStrChars ('\t' :: acc) r
      | 'r' :: r => parseStrChars ('\r' :: acc) r
      | 'b' :: r => parseStrChars (Char.ofNat 8 :: acc) r
      | 'f' :: r => parseStrChars (Char.ofNat 12 :: acc) r
      | 'u' :: a :: b :: c :: d :: r =>
          match hexVal a, hexVal b, hexVal c, hexVal d with
          | some ha, some hb, some hc, some hd =>
              parseStrChars (Char.ofNat (((ha * 16 + hb) * 16 + hc) * 16 + hd) :: acc) r
          | _, _, _, _ => none
      | _ => none
  | acc, c :: rest => if c.toNat < 32 then none else parseStrChars (c :: acc) rest

/-- Accumulate a run of decimal digits into a number. -/
def digitsToNat (acc : Nat) : List Char → Nat × List Char
  | c :: cs => if c.isDigit then digitsToNat (acc * 10 + (c.toNat - 48)) cs else (acc, c :: cs)
  | [] => (acc, [])

/-- Collect a run of decimal digits as a list of digit values. -/
def takeDigits : List Char → List Nat × List Char
  | c :: cs =>
      if c.isDigit then
        let (ds, r) := takeDigits cs
        ((c.toNat - 48) :: ds, r)
      else ([], c :: cs)
  | [] => ([], [])

/-- Integer part of a JSON number: `0`, or a nonzero leading digit followed
by digits (a leading zero before further digits is rejected, as in
`json.loads`). -/
def parseIntPart : List Char → Option (Nat × List Char)
  | '0' :: cs =>
      match cs with
      | c :: _ => if c.isDigit then none else some (0, cs)
      | [] => some (0, [])
  | c :: cs => if c.isDigit then some (digitsToNat 0 (c :: cs)) else none
  | [] => none

/-- A JSON number: optional minus sign, integer part, optional fraction
(exponent notation is not modelled). -/
def parseNumChars (cs : List Char) : Option (PyNum × List Char) :=
  let (neg, cs1) := match cs with | '-' :: r => (true, r) | r => (false, r)
  match parseIntPart cs1 with
  | none => none
  | some (ip, cs2) =>
      match cs2 with
      | '.' :: cs3 =>
          match takeDigits cs3 with
          | ([], _) => none
          | (ds, cs4) => some (.dec neg ip ds, cs4)
      | _ => some (.int (if neg then -(ip : Int) else (ip : Int)), cs2)

/-- Fuel-indexed parser for one JSON value (model of `json.loads`); the tail
of an array or object is parsed by recursing on the remaining input with the
opening bracket re-inserted, which keeps the recursion structural in the
fuel. -/
def parseVal : Nat → List Char → Option (Json × List Char)
  | 0, _ => none
  | Nat.succ fuel, cs0 =>
    match skipWs cs0 with
    | 'n' :: 'u' :: 'l' :: 'l' :: rest => some (.null, rest)
    | 't' :: 'r' :: 'u' :: 'e' :: rest => some (.bool true, rest)
    | 'f' :: 'a' :: 'l' :: 's' :: 'e' :: rest => some (.bool false, rest)
    | '\"' :: rest =>
        match parseStrChars [] rest with
        | some (chars, r) => some (.str (String.mk chars), r)
        | none => none
    | '\x7b' :: rest =>
        (match skipWs rest with
         | '\x7d' :: r2 => some (.obj [], r2)
         | '\"' :: r2 =>
             (match parseStrChars [] r2 with
              | none => none
              | some (kchars, r3) =>
                (match skipWs r3 with
                 | ':' :: r4 =>
                     (match parseVal fuel r4 with
                      | none => none
                      | some (v, r5) =>
                        (match skipWs r5 with
                         | ',' :: r6 =>
                             (match skipWs r6 with
                              | '\"' :: r7 =>
                                  (match parseVal fuel ('\x7b' :: '\"' :: r7) with
                                   | some (.obj kvs, r8) =>
                                       some (.obj ((String.mk kchars, v) :: kvs), r8)
                                   | _ => none)
                              | _ => none)
                         | '\x7d' :: r6 => some (.obj [(String.mk kchars, v)], r6)
                         | _ => none))
                 | _ => none))
         | _ => none)
    | '[' :: rest =>
        (match skipWs rest with
         | ']' :: r2 => some (.arr [], r2)
         | r2 =>
             (match parseVal fuel r2 with
              | none => none
              | some (v, r3) =>
                (match skipWs r3 with
                 | ',' :: r4 =>
                     (match skipWs r4 with
                      | ']' :: _ => none
                      | r5 =>
                          (match parseVal fuel ('[' :: r5) with
                           | some (.arr vs, r6) => some (.arr (v :: vs), r6)
                           | _ => none))
                 | ']' :: r4 => some (.arr [v], r4)
                 | _ => none)))
    | c :: rest =>
        if c = '-' ∨ c.isDigit then
          match parseNumChars (c :: rest) with
          | some (n, r) => some (.num n, r)
          | none => none
        else none
    | [] => none

/-- Model of `json.loads` on the whole response text: one JSON value with
only whitespace around it. -/
def parseJson (body : String) : Option Json :=
  match parseVal (body.length + 2) body.data with
  | some (j, rest) => if skipWs rest = [] then some j else none
  | none => none

/-- Model of a Python `datetime` as produced by `datetime.fromisoformat`:
wall-clock fields plus an optional UTC offset in minutes (fractional seconds
are validated but not stored, as no formatting here displays them). -/
structure PyDateTime where
  year : Nat
  month : Nat
  day : Nat
  hour : Nat
  minute : Nat
  second : Nat
  offsetMinutes : Option Int
deriving DecidableEq

/-- Read exactly `n` decimal digits as a number. -/
def readNum : Nat → Nat → List Char → Option (Nat × List Char)
  | 0, acc, cs => some (acc, cs)
  | n + 1, acc, c :: cs =>
      if c.isDigit then readNum n (acc * 10 + (c.toNat - 48)) cs else none
  | _ + 1, _, [] => none

/-- Gregorian leap-year test. -/
def isLeap (y : Nat) : Bool := y % 4 = 0 && (y % 100 ≠ 0 || y % 400 = 0)

/-- Days in a month, as validated by the `datetime` constructor. -/
def daysInMonth (y m : Nat) : Nat :=
  if m = 2 then (if isLeap y then 29 else 28)
  else if m = 4 ∨ m = 6 ∨ m = 9 ∨ m = 11 then 30
  else 31

/-- Drop a run of decimal digits. -/
def dropDigits : List Char → List Char
  | c :: cs => if c.isDigit then dropDigits cs else c :: cs
  | [] => []

/-- Consume an optional fractional-seconds part `.d+`. -/
def consumeFrac : List Char → Option (List Char)
  | '.' :: cs =>
      match cs with
      | c :: _ => if c.isDigit then some (dropDigits cs) else none
      | [] => none
  | cs => some cs

/-- Time-of-day part `HH[:MM[:SS[.d+]]]` of an ISO-8601 string. -/
def parseHMS (cs : List Char) : Option (Nat × Nat × Nat × List Char) :=
  match readNum 2 0 cs with
  | none => none
  | some (h, cs1) =>
      match cs1 with
      | ':' :: cs2 =>
          (match readNum 2 0 cs2 with
           | none => none
           | some (mi, cs3) =>
             (match cs3 with
              | ':' :: cs4 =>
                  (match readNum 2 0 cs4 with
                   | none => none
                   | some (se, cs5) =>
                     (match consumeFrac cs5 with
                      | none => none
                      | some cs6 => some (h, mi, se, cs6)))
              | _ => some (h, mi, 0, cs3)))
      | _ => some (h, 0, 0, cs1)

/-- Magnitude of a UTC offset, `HH`, `HH:MM` or `HHMM`, in minutes; offsets
are bounded below 24 hours as required by `datetime.timezone`. -/
def parseOffAmount (cs : List Char) : Option (Int × List Char) :=
  match readNum 2 0 cs with
  | none => none
  | some (hh, cs1) =>
      match cs1 with
      | ':' :: cs2 =>
          (match readNum 2 0 cs2 with
           | none => none
           | some (mm, cs3) =>
               if hh ≤ 23 ∧ mm ≤ 59 then some ((hh * 60 + mm : Nat), cs3) else none)
      | c :: cs2 =>
          if c.isDigit then
            match readNum 2 0 (c :: cs2) with
            | none => none
            | some (mm, cs3) =>
                if hh ≤ 23 ∧ mm ≤ 59 then some ((hh * 60 + mm : Nat), cs3) else none
          else if hh ≤ 23 then some ((hh * 60 : Nat), c :: cs2) else none
      | [] => if hh ≤ 23 then some ((hh * 60 : Nat), []) else none

/-- Optional signed UTC offset at the end of an ISO-8601 string. -/
def parseOffsetOpt : List Char → Option (Option Int × List Char)
  | [] => some (none, [])
  | '+' :: cs =>
      (match parseOffAmount cs with
       | some (v, r) => some (some v, r)
       | none => none)
  | '-' :: cs =>
      (match parseOffAmount cs with
       | some (v, r) => some (some (-v), r)
       | none => none)
  | cs => some (none, cs)

/-- Model of `datetime.fromisoformat` for the dashed calendar form
`YYYY-MM-DD[<sep>HH[:MM[:SS[.d+]]][±HH[:]MM]]` with any single character as
the date-time separator, validating calendar and clock ranges (alternative
ISO-8601 layouts such as basic format or week dates are not modelled). -/
def pyFromIsoformat (s : String) : Option PyDateTime :=
  match readNum 4 0 s.data with
  | none => none
  | some (y, cs1) =>
    match cs1 with
    | '-' :: cs2 =>
      (match readNum 2 0 cs2 with
       | none => none
       | some (mo, cs3) =>
         (match cs3 with
          | '-' :: cs4 =>
            (match readNum 2 0 cs4 with
             | none => none
             | some (d, cs5) =>
                 if 1 ≤ y ∧ 1 ≤ mo ∧ mo ≤ 12 ∧ 1 ≤ d ∧ d ≤ daysInMonth y mo then
                   match cs5 with
                   | [] => some ⟨y, mo, d, 0, 0, 0, none⟩
                   | _sep :: cs6 =>
                       (match parseHMS cs6 with
                        | none => none
                        | some (h, mi, se, cs7) =>
                          (match parseOffsetOpt cs7 with
                           | none => none
                           | some (off, cs8) =>
                               if h ≤ 23 ∧ mi ≤ 59 ∧ se ≤ 59 ∧ cs8 = [] then
                                 some ⟨y, mo, d, h, mi, se, off⟩
                               else none))
                 else none)
          | _ => none))
    | _ => none

/-- Model of `str.replace('Z', '+00:00')`: every occurrence of `Z` is
replaced. -/
def replaceZChars : List Char → List Char
  | [] => []
  | c :: cs =>
      if c = 'Z' then '+' :: '0' :: '0' :: ':' :: '0' :: '0' :: replaceZChars cs
      else c :: replaceZChars cs

/-- `iso_time.replace('Z', '+00:00')` on strings. -/
def pyReplaceZ (s : String) : String := String.mk (replaceZChars s.data)

/-- Zero-padded two-digit rendering, as in `strftime` numeric fields. -/
def zfill2 (n : Nat) : String := if n < 10 then "0" ++ toString n else toString n

/-- The 12-hour clock hour shown by `%I`. -/
def hour12 (h : Nat) : Nat := if h % 12 = 0 then 12 else h % 12

/-- Model of `strftime("%I:%M %p")`. -/
def pyStrftimeTime (dt : PyDateTime) : String :=
  zfill2 (hour12 dt.hour) ++ ":" ++ zfill2 dt.minute ++ " " ++
    (if dt.hour < 12 then "AM" else "PM")

/-- English month name shown by `%B`. -/
def monthName (m : Nat) : String :=
  ["January", "February", "March", "April", "May", "June", "July",
   "August", "September", "October", "November", "December"].getD (m - 1) ""

/-- Model of `strftime("%B %d, %Y")`. -/
def pyStrftimeDate (dt : PyDateTime) : String :=
  monthName dt.month ++ " " ++ zfill2 dt.day ++ ", " ++ toString dt.year

/-- `format_time` (app.py lines 69-77): `None` and the empty string are
falsy and yield `"N/A"`; otherwise the `Z`-replaced string is parsed and
formatted, with `ValueError` mapped to `"Time N/A"`. -/
def format_time (iso_time : Option String) : String :=
  match iso_time with
  | none => "N/A"
  | some s =>
      if s = "" then "N/A"
      else
        match pyFromIsoformat (pyReplaceZ s) with
        | some dt => pyStrftimeTime dt
        | none => "Time N/A"

/-- `format_date` (app.py lines 79-87): same structure as `format_time`,
with the long-form date format and `"Date N/A"` on parse failure. -/
def format_date (iso_time : Option String) : String :=
  match iso_time with
  | none => "N/A"
  | some s =>
      if s = "" then "N/A"
      else
        match pyFromIsoformat (pyReplaceZ s) with
        | some dt => pyStrftimeDate dt
        | none => "Date N/A"

/-- The inline numeric-with-unit formatting of app.py lines 177-178 and
183-184: `f"\x7bvalue\x7d\x7bsuffix\x7d" if value is not None else "--"`. -/
def numeric_display (value : Option PyNum) (suffix : String) : String :=
  match value with
  | some v => pyNumStr v ++ suffix
  | none => "--"

/-- The three display variants of the media dispatch. -/
inductive MediaDisplay where
  | video
  | image
  | unrecognized
deriving DecidableEq

/-- The media-type dispatch of app.py lines 150-157: `== 'video'`, then
`elif == 'image'`, else the unknown-media warning branch. -/
def classify_media (media_type : Option String) : MediaDisplay :=
  if media_type = some "video" then .video
  else if media_type = some "image" then .image
  else .unrecognized

/-- Python truthiness of a parsed JSON value, as used by `if not data`. -/
def pyTruthy : Json → Bool
  | .null => false
  | .bool b => b
  | .num n => !pyNumIsZero n
  | .str s => s ≠ ""
  | .arr elems => !elems.isEmpty
  | .obj fields => !fields.isEmpty

/-- Whether an object field list binds a key. -/
def hasKey (fields : List (String × Json)) (k : String) : Bool :=
  fields.any (fun kv => kv.1 = k)

/-- Substring test on character lists, for Python `in` on strings. -/
def chListContains (haystack needle : List Char) : Bool :=
  match haystack with
  | [] => needle.isEmpty
  | _ :: rest => needle.isPrefixOf haystack || chListContains rest needle

/-- Python `k in data` for a string `k`: key membership for dicts, element
equality for lists, substring for strings; `TypeError` (modelled as `none`)
for the remaining, non-container values. -/
def keyMem (k : String) : Json → Option Bool
  | .obj fields => some (hasKey fields k)
  | .arr elems => some (elems.any (fun j => j.eqStr k))
  | .str s => some (chListContains s.data k.data)
  | _ => none

/-- Outcome of the structural check of app.py line 129. -/
inductive ValidateResult where
  | schemaError
  | ok
  | typeError
deriving DecidableEq

/-- The validation of app.py lines 129-131:
`if not data or 'apod' not in data or 'weather' not in data`, with Python's
short-circuit evaluation; a truthy non-container value reaches `in` and
raises `TypeError`. -/
def validate (data : Json) : ValidateResult :=
  if pyTruthy data then
    match keyMem "apod" data with
    | none => .typeError
    | some false => .schemaError
    | some true =>
        match keyMem "weather" data with
        | none => .typeError
        | some false => .schemaError
        | some true => .ok
  else .schemaError

/-- Behavior of the network on the single GET request issued by
`fetch_data`: timeout expiry, connection failure, or a response with a
status code and body. -/
inductive NetResult where
  | timeout
  | connFailure
  | response (status : Nat) (body : String)

/-- Which `except` handler of `fetch_data` (app.py lines 97-102) caught the
exception. -/
inductive ExceptBranch where
  | requestException
  | unexpected
deriving DecidableEq

/-- The underlying cause carried by the raised exception. -/
inductive FetchCause where
  | timedOut
  | connFailed
  | httpStatus (status : Nat)
  | invalidJson
deriving DecidableEq

/-- Outcome of `fetch_data`: a parsed JSON document, or an error handled by
one of the two `except` branches (each of which shows an error message and
calls `st.stop()`, aborting the render pass). -/
inductive FetchOutcome where
  | ok (data : Json)
  | err (branch : ExceptBranch) (cause : FetchCause)

/-- The handler that ran, if any. -/
def FetchOutcome.branchOf : FetchOutcome → Option ExceptBranch
  | .ok _ => none
  | .err b _ => some b

/-- The fixed template of the user-facing message each handler shows. -/
def FetchOutcome.messageTemplate : FetchOutcome → Option String
  | .ok _ => none
  | .err .requestException _ => some "Connection Error: Could not connect to webhook."
  | .err .unexpected _ => some "An unexpected error occurred."

/-- The `timeout=10` argument of `requests.get` (app.py line 93). -/
def requestTimeoutSeconds : Nat := 10

/-- `fetch_data` (app.py lines 89-102): one GET with `timeout=10`;
`raise_for_status()` raises `requests.HTTPError` exactly for status codes
400-599; the body is then decoded by `response.json()`, whose
`requests.exceptions.JSONDecodeError` subclasses `RequestException`
(requests >= 2.27), so timeouts, connection failures, HTTP errors and JSON
decode failures are all caught by the first `except` branch. -/
def fetch_data (net : NetResult) : FetchOutcome :=
  match net with
  | .timeout => .err .requestException .timedOut
  | .connFailure => .err .requestException .connFailed
  | .response status body =>
      if 400 ≤ status ∧ status < 600 then .err .requestException (.httpStatus status)
      else
        match parseJson body with
        | some j => .ok j
        | none => .err .requestException .invalidJson

/-- Claim C1: for every unit suffix, `numeric_display` returns `"--"` on an
absent value, and on any present numeric value returns the value's textual
form followed by the suffix; in particular `0` gives `"0°C"` (never `"--"`)
and `21.5` gives `"21.5°C"`. -/
theorem numeric_formatter_spec :
    (∀ suffix : String, numeric_display none suffix = "--") ∧
    (∀ (v : PyNum) (suffix : String),
      numeric_display (some v) suffix = pyNumStr v ++ suffix) ∧
    numeric_display (some (.int 0)) "°C" = "0°C" ∧
    numeric_display (some (.dec false 21 [5])) "°C" = "21.5°C" ∧
    numeric_display (some (.int 0)) "°C" ≠ "--" :=
  ⟨fun _ => rfl, fun _ _ => rfl, rfl, rfl, by decide⟩

/-- Claim C2: a null/absent timestamp makes both formatters return `"N/A"`,
and a non-empty string whose `Z`-replaced form `datetime.fromisoformat`
rejects makes `format_time` return `"Time N/A"` and `format_date` return
`"Date N/A"`. -/
theorem timestamp_placeholder_spec :
    format_time none = "N/A" ∧ format_date none = "N/A" ∧
    ∀ s : String, s ≠ "" → pyFromIsoformat (pyReplaceZ s) = none →
      format_time (some s) = "Time N/A" ∧ format_date (some s) = "Date N/A" := by
  refine ⟨rfl, rfl, fun s hs hp => ⟨?_, ?_⟩⟩ <;>
    simp [format_time, format_date, hs, hp]

/-- Witness for C2 at the concrete unparsable input `"hello"`. -/
theorem timestamp_placeholder_spec_witness :
    ("hello" : String) ≠ "" ∧ pyFromIsoformat (pyReplaceZ "hello") = none ∧
    format_time (some "hello") = "Time N/A" ∧ format_date (some "hello") = "Date N/A" :=
  ⟨by decide, by rfl,
   (timestamp_placeholder_spec.2.2 "hello" (by decide) (by rfl)).1,
   (timestamp_placeholder_spec.2.2 "hello" (by decide) (by rfl)).2⟩

/-- Claim C3: each normalizer is total over its input domain — for every
input it returns one of its defined results (a placeholder, or the
formatting of a successful parse), and the media dispatch always lands in
one of the three variants. -/
theorem normalizers_total :
    (∀ t : Option String,
      format_time t = "N/A" ∨ format_time t = "Time N/A" ∨
      ∃ s dt, t = some s ∧ pyFromIsoformat (pyReplaceZ s) = some dt ∧
        format_time t = pyStrftimeTime dt) ∧
    (∀ t : Option String,
      format_date t = "N/A" ∨ format_date t = "Date N/A" ∨
      ∃ s dt, t = some s ∧ pyFromIsoformat (pyReplaceZ s) = some dt ∧
        format_date t = pyStrftimeDate dt) ∧
    (∀ (v : Option PyNum) (suffix : String),
      numeric_display v suffix = "--" ∨
      ∃ x, v = some x ∧ numeric_display v suffix = pyNumStr x ++ suffix) ∧
    (∀ mt : Option String,
      classify_media mt = .image ∨ classify_media mt = .video ∨
      classify_media mt = .unrecognized) := by
  refine ⟨?_, ?_, ?_, ?_⟩
  · intro t
    match t with
    | none => exact Or.inl rfl
    | some s =>
      by_cases hs : s = ""
      · exact Or.inl (by simp [format_time, hs])
      · cases hp : pyFromIsoformat (pyReplaceZ s) with
        | none => exact Or.inr (Or.inl (by simp [format_time, hs, hp]))
        | some dt =>
            exact Or.inr (Or.inr ⟨s, dt, rfl, hp, by simp [format_time, hs, hp]⟩)
  · intro t
    match t with
    | none => exact Or.inl rfl
    | some s =>
      by_cases hs : s = ""
      · exact Or.inl (by simp [format_date, hs])
      · cases hp : pyFromIsoformat (pyReplaceZ s) with
        | none => exact Or.inr (Or.inl (by simp [format_date, hs, hp]))
        | some dt =>
            exact Or.inr (Or.inr ⟨s, dt, rfl, hp, by simp [format_date, hs, hp]⟩)
  · intro v suffix
    match v with
    | none => exact Or.inl rfl
    | some x => exact Or.inr ⟨x, rfl, rfl⟩
  · intro mt
    by_cases h1 : mt = some "video"
    · exact Or.inr (Or.inl (by simp [classify_media, h1]))
    · by_cases h2 : mt = some "image"
      · exact Or.inl (by simp [classify_media, h1, h2])
      · exact Or.inr (Or.inr (by simp [classify_media, h1, h2]))

/-- Claim C4: on an object payload, the structural check signals a schema
error exactly when one of the required top-level keys `apod`, `weather` is
missing; in particular the empty object and an object holding only `apod`
are rejected. -/
theorem validator_schema_check :
    validate (.obj []) = .schemaError ∧
    (∀ a : Json, validate (.obj [("apod", a)]) = .schemaError) ∧
    ∀ fields : List (String × Json),
      (validate (.obj fields) = .schemaError ↔
        hasKey fields "apod" = false ∨ hasKey fields "weather" = false) := by
  refine ⟨rfl, fun a => rfl, fun fields => ?_⟩
  cases fields with
  | nil => simp [validate, pyTruthy, keyMem, hasKey]
  | cons kv rest =>
    have ht : pyTruthy (Json.obj (kv :: rest)) = true := by
      simp [pyTruthy]
    have hk : ∀ k : String,
        keyMem k (Json.obj (kv :: rest)) = some (hasKey (kv :: rest) k) :=
      fun k => rfl
    cases ha : hasKey (kv :: rest) "apod" <;>
      cases hw : hasKey (kv :: rest) "weather" <;>
        simp [validate, ht, hk, ha, hw]

/-- Claim C7: the time formatter renders `"2024-01-01T12:30:00Z"` as
`"12:30 PM"` and the date formatter renders `"2024-01-01T00:00:00Z"` as
`"January 01, 2024"`. -/
theorem formatter_concrete_values :
    format_time (some "2024-01-01T12:30:00Z") = "12:30 PM" ∧
    format_date (some "2024-01-01T00:00:00Z") = "January 01, 2024" :=
  ⟨by rfl, by rfl⟩

/-- Claim C8: the media dispatch maps `"image"` to the image variant,
`"video"` to the video variant, and every other value, absence included, to
the unrecognized variant. -/
theorem media_classifier_spec :
    classify_media (some "image") = .image ∧
    classify_media (some "video") = .video ∧
    classify_media none = .unrecognized ∧
    ∀ mt : Option String, mt ≠ some "image" → mt ≠ some "video" →
      classify_media mt = .unrecognized := by
  refine ⟨by rfl, by rfl, by rfl, fun mt h1 h2 => ?_⟩
  simp [classify_media, h1, h2]

/-- Witness for C8 at the concrete unknown media type `"gif"`. -/
theorem media_classifier_spec_witness :
    (some "gif" ≠ some "image") ∧ (some "gif" ≠ some "video") ∧
    classify_media (some "gif") = .unrecognized :=
  ⟨by decide, by decide,
   media_classifier_spec.2.2.2 (some "gif") (by decide) (by decide)⟩

/-- Claim C9: the empty string is treated as absence by both formatters:
they return `"N/A"`, not the unparsable-input placeholders. -/
theorem empty_string_is_absence :
    format_time (some "") = "N/A" ∧ format_date (some "") = "N/A" ∧
    format_time (some "") ≠ "Time N/A" ∧ format_date (some "") ≠ "Date N/A" :=
  ⟨by rfl, by rfl, by decide, by decide⟩

/-- Claim C10: the structural check looks only at key presence: any object
payload binding both `apod` and `weather` passes, whatever values (of
whatever JSON type) those keys hold. -/
theorem validator_ignores_value_shape (fields : List (String × Json))
    (ha : hasKey fields "apod" = true) (hw : hasKey fields "weather" = true) :
    validate (.obj fields) = .ok := by
  have ht : pyTruthy (Json.obj fields) = true := by
    cases fields with
    | nil => simp [hasKey] at ha
    | cons kv rest => simp [pyTruthy]
  have hk : ∀ k : String, keyMem k (Json.obj fields) = some (hasKey fields k) :=
    fun k => rfl
  simp [validate, ht, hk, ha, hw]

/-- Witness for C10: a payload whose `apod` value is a bare number and whose
`weather` value is a bare string still passes structural validation. -/
theorem validator_ignores_value_shape_witness :
    hasKey [("apod", Json.num (.int 1)), ("weather", Json.str "x")] "apod" = true ∧
    hasKey [("apod", Json.num (.int 1)), ("weather", Json.str "x")] "weather" = true ∧
    validate (.obj [("apod", Json.num (.int 1)), ("weather", Json.str "x")]) = .ok :=
  ⟨by decide, by decide,
   validator_ignores_value_shape [("apod", Json.num (.int 1)), ("weather", Json.str "x")]
     (by decide) (by decide)⟩

/-- Claim C5 counterexample: the claim that an unparsable body is signaled
as a ParseError distinct from FetchError is false. At the concrete input of
a 200 response with body `"not json"`, the parse failure is caught by the
same `except requests.exceptions.RequestException` handler — with the same
user-facing message template — that handles connection failures, so there is
no distinct error kind. -/
theorem parse_error_not_distinct :
    parseJson "not json" = none ∧
    fetch_data (.response 200 "not json") = .err .requestException .invalidJson ∧
    FetchOutcome.branchOf (fetch_data (.response 200 "not json")) =
      FetchOutcome.branchOf (fetch_data .connFailure) ∧
    FetchOutcome.messageTemplate (fetch_data (.response 200 "not json")) =
      FetchOutcome.messageTemplate (fetch_data .connFailure) :=
  ⟨rfl, rfl, rfl, rfl⟩

/-- Claim C5 as amended: for every fetched body that is not valid JSON (on a
non-4xx/5xx status), the pipeline aborts the render pass with an error, but
the parse failure is handled by the same `RequestException` branch, with the
same message template, as fetch failures — there is no error kind distinct
from FetchError. -/
theorem parse_failure_fatal_same_branch (status : Nat) (body : String)
    (hs : ¬ (400 ≤ status ∧ status < 600)) (hp : parseJson body = none) :
    fetch_data (.response status body) = .err .requestException .invalidJson ∧
    FetchOutcome.branchOf (fetch_data (.response status body)) =
      FetchOutcome.branchOf (fetch_data .connFailure) ∧
    FetchOutcome.messageTemplate (fetch_data (.response status body)) =
      FetchOutcome.messageTemplate (fetch_data .connFailure) := by
  have h1 : fetch_data (.response status body) = .err .requestException .invalidJson := by
    simp [fetch_data, hs, hp]
  exact ⟨h1, by rw [h1]; rfl, by rw [h1]; rfl⟩

/-- Witness for the amended C5 at status 200 with body `"not json"`. -/
theorem parse_failure_fatal_same_branch_witness :
    (¬ (400 ≤ 200 ∧ 200 < 600)) ∧ parseJson "not json" = none ∧
    fetch_data (.response 200 "not json") = .err .requestException .invalidJson :=
  ⟨by decide, by rfl,
   (parse_failure_fatal_same_branch 200 "not json" (by decide) (by rfl)).1⟩

/-- Claim C6 counterexample: the claim that every non-2xx status signals a
FetchError is false. `raise_for_status()` raises only for statuses 400-599,
so at the concrete input of a 304 response with body `"\x7b\x7d"` — a non-2xx
status — `fetch_data` returns the parsed empty object instead of an error. -/
theorem fetcher_non2xx_ok :
    (304 < 200 ∨ 300 ≤ 304) ∧
    fetch_data (.response 304 "\x7b\x7d") = .ok (.obj []) :=
  ⟨by decide, rfl⟩

/-- Claim C6 as amended: the fetcher performs a single GET with a fixed
10-second timeout and no retries; it signals a FetchError carrying the
cause on timeout expiry, connection failure, or any 4xx/5xx status, and on
every other status it returns the parsed response body when it parses as
JSON. -/
theorem fetcher_error_behavior :
    requestTimeoutSeconds = 10 ∧
    fetch_data .timeout = .err .requestException .timedOut ∧
    fetch_data .connFailure = .err .requestException .connFailed ∧
    (∀ (status : Nat) (body : String), 400 ≤ status → status < 600 →
      fetch_data (.response status body) = .err .requestException (.httpStatus status)) ∧
    (∀ (status : Nat) (body : String) (j : Json),
      ¬ (400 ≤ status ∧ status < 600) → parseJson body = some j →
      fetch_data (.response status body) = .ok j) := by
  refine ⟨rfl, rfl, rfl, fun status body h1 h2 => ?_, fun status body j h hp => ?_⟩
  · have hc : 400 ≤ status ∧ status < 600 := ⟨h1, h2⟩
    simp [fetch_data, hc]
  · simp [fetch_data, h, hp]

/-- Witness for the amended C6 at a 404 response. -/
theorem fetcher_error_behavior_witness :
    (400 ≤ 404) ∧ (404 < 600) ∧
    fetch_data (.response 404 "x") = .err .requestException (.httpStatus 404) :=
  ⟨by decide, by decide,
   fetcher_error_behavior.2.2.2.1 404 "x" (by decide) (by decide)⟩

end CosmicDigest
